import Mathlib

/-!
Shallow embedding of `src/sketch.js` (an 800x800 p5.js Perlin-noise sketch)
and proofs about it.

Modelling conventions:
* JavaScript numbers are modelled as exact rationals (`ℚ`).
* p5's Perlin `noise` is library code, not part of the repository; it is
  modelled as an abstract parameter `noiseF : ℚ → ℚ → ℚ` (2D noise).  A
  one-argument call `noise(x)` in the source means `noise(x, 0)` in p5, so
  it is embedded as `noiseF x 0`.  Where a claim needs the Noise Source
  contract (range `[0,1]`), it appears as a hypothesis on `noiseF`.
* p5's seedable `random` is likewise library code; it is modelled as an
  abstract deterministic implementation `RngImpl σ` (a seeding function and
  a next-unit-value step), so the repository's reseeding discipline can be
  reasoned about for any deterministic generator.
* The global mutable variables (`t`, `noiseStrength`, `timeScale`,
  `circles`, the RNG state) are threaded explicitly.
-/

/-- p5 `map(n, start1, stop1, start2, stop2)` (no clamping). -/
def mapQ (n start1 stop1 start2 stop2 : ℚ) : ℚ :=
  (n - start1) / (stop1 - start1) * (stop2 - start2) + start2

/-- p5 `constrain(n, low, high)` = `max(min(n, high), low)`. -/
def constrainQ (n low high : ℚ) : ℚ :=
  max (min n high) low

/-- `NOISE` configuration record type (sketch.js lines 13-20). -/
structure NoiseCfg where
  animate : Bool
  speed : ℚ
  wiggle : ℚ
  sMin : ℚ
  sMax : ℚ
  rotMax : ℚ
deriving DecidableEq, Repr

/-- The shipped `NOISE` constant: speed 0.02, wiggle 50, sMin 0.9,
sMax 1.15, rotMax 300. -/
def NOISE : NoiseCfg :=
  { animate := true
    speed := 1/50
    wiggle := 50
    sMin := 9/10
    sMax := 23/20
    rotMax := 300 }

/-- `noiseWiggle(seed, amp, tGlobal)` (sketch.js lines 58-60):
`map(noise(seed, tGlobal), 0, 1, -amp*noiseStrength, amp*noiseStrength)`.
`noiseF` is the ambient Perlin noise function and `noiseStrength` the
ambient global. -/
def noiseWiggle (noiseF : ℚ → ℚ → ℚ) (noiseStrength seed amp tGlobal : ℚ) : ℚ :=
  mapQ (noiseF seed tGlobal) 0 1 (-(amp * noiseStrength)) (amp * noiseStrength)

/-- `mouseMoved()` (sketch.js lines 82-90): returns the new
`(noiseStrength, timeScale)` pair computed from the mouse position and the
canvas dimensions. -/
def mouseMoved (mouseX mouseY width height : ℚ) : ℚ × ℚ :=
  (constrainQ (mapQ mouseX 0 width (1/2) 2) (1/2) 2,
   constrainQ (mapQ mouseY 0 height (3/10) 2) (3/10) 2)

/-- The clock-advance statement of `draw()` (sketch.js lines 70-72):
`if (NOISE.animate) t += NOISE.speed * timeScale`. -/
def drawStep (timeScale t : ℚ) : ℚ :=
  if NOISE.animate then t + NOISE.speed * timeScale else t

/-- The clock after `n` rendered frames starting from `t0`, with
`timeScale` fixed. -/
def clockAfter (timeScale : ℚ) : ℕ → ℚ → ℚ
  | 0, t0 => t0
  | n + 1, t0 => clockAfter timeScale n (drawStep timeScale t0)

/-- Spec-side linear interpolation of `x` from `[a, b]` to `[c, d]`
(section 4.3's `lerp(pointerX, [0, canvasWidth] → [0.5, 2.0])`). -/
def lerpSpec (x a b c d : ℚ) : ℚ :=
  c + (x - a) * (d - c) / (b - a)

/-- Spec-side `clamp(v, lo, hi)`. -/
def clampSpec (v lo hi : ℚ) : ℚ :=
  min (max v lo) hi

/-- `constrain` and the spec's `clamp` agree whenever the interval is
nonempty. -/
theorem constrainQ_eq_clampSpec (n lo hi : ℚ) (h : lo ≤ hi) :
    constrainQ n lo hi = clampSpec n lo hi := by
  simp only [constrainQ, clampSpec, min_def, max_def]
  split_ifs <;> linarith

/-- Claim C1: for every noise function satisfying the Noise Source range
contract, every seed and time, every amplitude `amp ≥ 0` and every
`noiseStrength ∈ [0.5, 2.0]`, `|noiseWiggle seed amp t| ≤ amp * 2`; in
particular with `noiseStrength = 0.5` and `amp = 20` the result lies in
`[-10, 10]`. -/
theorem noiseWiggle_bounded (noiseF : ℚ → ℚ → ℚ) (noiseStrength seed amp tGlobal : ℚ)
    (hrange : ∀ s u, 0 ≤ noiseF s u ∧ noiseF s u ≤ 1)
    (hamp : 0 ≤ amp) (hlo : 1/2 ≤ noiseStrength) (hhi : noiseStrength ≤ 2) :
    |noiseWiggle noiseF noiseStrength seed amp tGlobal| ≤ amp * 2 ∧
      (noiseStrength = 1/2 → amp = 20 →
        -10 ≤ noiseWiggle noiseF noiseStrength seed amp tGlobal ∧
          noiseWiggle noiseF noiseStrength seed amp tGlobal ≤ 10) := by
  obtain ⟨h0, h1⟩ := hrange seed tGlobal
  set v := noiseF seed tGlobal with hv
  have hns : 0 ≤ noiseStrength := le_trans (by norm_num) hlo
  have hm : 0 ≤ amp * noiseStrength := mul_nonneg hamp hns
  have hval : noiseWiggle noiseF noiseStrength seed amp tGlobal
      = amp * noiseStrength * (2 * v - 1) := by
    simp only [noiseWiggle, mapQ, ← hv]
    ring
  have hbound : |amp * noiseStrength * (2 * v - 1)| ≤ amp * noiseStrength := by
    rw [abs_mul]
    have h2 : |2 * v - 1| ≤ 1 := by
      rw [abs_le]; constructor <;> linarith
    calc |amp * noiseStrength| * |2 * v - 1|
        ≤ |amp * noiseStrength| * 1 := by
          exact mul_le_mul_of_nonneg_left h2 (abs_nonneg _)
      _ = amp * noiseStrength := by rw [mul_one, abs_of_nonneg hm]
  constructor
  · rw [hval]
    calc |amp * noiseStrength * (2 * v - 1)| ≤ amp * noiseStrength := hbound
      _ ≤ amp * 2 := by nlinarith
  · intro hns2 hamp20
    subst hns2; subst hamp20
    have := hbound
    rw [hval]
    rw [abs_le] at this
    constructor <;> nlinarith [this.1, this.2]

/-- Claim C1, witness at a concrete input. -/
theorem noiseWiggle_bounded_witness :
    |noiseWiggle (fun _ _ => 1/2) (1/2) 42 20 0| ≤ 20 * 2 :=
  (noiseWiggle_bounded (fun _ _ => 1/2) (1/2) 42 20 0
    (fun _ _ => by norm_num) (by norm_num) (by norm_num) (by norm_num)).1

/-- Claim C2: the pointer handler sets `noiseStrength` to the clamp to
`[0.5, 2.0]` of the linear interpolation of `mouseX` from `[0, width]` to
`[0.5, 2.0]`, and `timeScale` to the clamp to `[0.3, 2.0]` of the linear
interpolation of `mouseY` from `[0, height]` to `[0.3, 2.0]`; on an
800x800 surface the pointer at (400,400) yields (1.25, 1.15), at (0,0)
yields (0.5, 0.3), at (800,800) yields (2.0, 2.0), and arbitrary
coordinates never leave the two closed intervals. -/
theorem mouseMoved_clamped_lerp (mouseX mouseY width height : ℚ) :
    mouseMoved mouseX mouseY width height
      = (clampSpec (lerpSpec mouseX 0 width (1/2) 2) (1/2) 2,
         clampSpec (lerpSpec mouseY 0 height (3/10) 2) (3/10) 2) ∧
    (1/2 ≤ (mouseMoved mouseX mouseY 800 800).1 ∧
      (mouseMoved mouseX mouseY 800 800).1 ≤ 2 ∧
      3/10 ≤ (mouseMoved mouseX mouseY 800 800).2 ∧
      (mouseMoved mouseX mouseY 800 800).2 ≤ 2) ∧
    mouseMoved 400 400 800 800 = (5/4, 23/20) ∧
    mouseMoved 0 0 800 800 = (1/2, 3/10) ∧
    mouseMoved 800 800 800 800 = (2, 2) := by
  refine ⟨?_, ⟨?_, ?_, ?_, ?_⟩, ?_, ?_, ?_⟩
  · have hf1 : mapQ mouseX 0 width (1/2) 2 = lerpSpec mouseX 0 width (1/2) 2 := by
      simp only [mapQ, lerpSpec]; ring
    have hf2 : mapQ mouseY 0 height (3/10) 2 = lerpSpec mouseY 0 height (3/10) 2 := by
      simp only [mapQ, lerpSpec]; ring
    simp only [mouseMoved]
    rw [hf1, hf2, constrainQ_eq_clampSpec _ _ _ (by norm_num),
      constrainQ_eq_clampSpec _ _ _ (by norm_num)]
  · exact le_max_right _ _
  · exact max_le (le_trans (min_le_right _ _) (by norm_num)) (by norm_num)
  · exact le_max_right _ _
  · exact max_le (le_trans (min_le_right _ _) (by norm_num)) (by norm_num)
  · simp only [mouseMoved, mapQ, constrainQ]; norm_num
  · simp only [mouseMoved, mapQ, constrainQ]; norm_num
  · simp only [mouseMoved, mapQ, constrainQ]; norm_num

/-- `CircleArt` instance data (sketch.js lines 96-108): base position,
base scale, a tag identifying the drawing function, and the four per-circle
noise seeds drawn at construction. -/
structure CircleArt where
  x : ℚ
  y : ℚ
  scale : ℚ
  drawFnId : ℕ
  nx : ℚ
  ny : ℚ
  ns : ℚ
  nr : ℚ
deriving DecidableEq, Repr

/-- The pure numeric computations of `CircleArt.display(tt)` (sketch.js
lines 114-145): the four base Perlin samples, the position offsets, the
breathing scale factor, the composed scale and the rotation angle.  The
source samples one-argument `noise(this.nx + tt)`, which in p5 is
`noise(this.nx + tt, 0)`. -/
structure DisplayCalc where
  px : ℚ
  py : ℚ
  ps : ℚ
  pr : ℚ
  dx : ℚ
  dy : ℚ
  sFactor : ℚ
  sc : ℚ
  ang : ℚ
deriving DecidableEq, Repr

def CircleArt.displayCalc (noiseF : ℚ → ℚ → ℚ) (noiseStrength : ℚ)
    (c : CircleArt) (tt : ℚ) : DisplayCalc :=
  let px := noiseF (c.nx + tt) 0
  let py := noiseF (c.ny + tt) 0
  let ps := noiseF (c.ns + tt) 0
  let pr := noiseF (c.nr + tt) 0
  let dx := mapQ px 0 1 (-(NOISE.wiggle * noiseStrength)) (NOISE.wiggle * noiseStrength)
  let dy := mapQ py 0 1 (-(NOISE.wiggle * noiseStrength)) (NOISE.wiggle * noiseStrength)
  let sFactor := mapQ ps 0 1 NOISE.sMin (NOISE.sMax * noiseStrength)
  let sc := c.scale * sFactor
  let ang := mapQ pr 0 1 (-(NOISE.rotMax * noiseStrength)) (NOISE.rotMax * noiseStrength)
  ⟨px, py, ps, pr, dx, dy, sFactor, sc, ang⟩

/-- A concrete noise function used to separate the two sampling schemes:
`fun _ u => max 0 (min 1 u)` is deterministic, continuous, and stays in
`[0, 1]`, so it satisfies the Noise Source contract of section 4.1. -/
def clampNoise : ℚ → ℚ → ℚ := fun _ u => max 0 (min 1 u)

/-- `clampNoise` satisfies the Noise Source range contract. -/
theorem clampNoise_range (s u : ℚ) : 0 ≤ clampNoise s u ∧ clampNoise s u ≤ 1 := by
  constructor
  · exact le_max_left _ _
  · exact max_le (by norm_num) (min_le_left _ _)

/-- A concrete figure with seeds 0 for the separation argument. -/
def figZero : CircleArt := ⟨10, 10, 1, 6, 0, 0, 0, 0⟩

/-- Claim C3, counterexample: with the contract-satisfying noise function
`clampNoise`, at `noiseStrength = 1` and time `tt = 1`, the x-offset
computed inside `CircleArt.display` differs from
`noiseWiggle(seed, amplitude, tt)` at the corresponding seed and the
configured amplitude: `display` samples `noise(seed + tt)` (one
coordinate), while `noiseWiggle` samples `noise(seed, tt)` (two
coordinates). -/
theorem display_offset_ne_noiseWiggle :
    (figZero.displayCalc clampNoise 1 1).dx
      ≠ noiseWiggle clampNoise 1 figZero.nx NOISE.wiggle 1 := by
  norm_num [CircleArt.displayCalc, figZero, clampNoise, noiseWiggle, mapQ, NOISE]

/-- Claim C3, amended: the offsets computed inside `CircleArt.display`
equal `noiseWiggle(seed + tt, amplitude, 0)` — the section-4.2 remap
applied to the one-argument sample `noise(seed + tt)` (p5's
`noise(x) = noise(x, 0)`) rather than to `sample(seed, tt)`: this holds
for the x and y position offsets with the configured wiggle amplitude and
for the rotation with the configured rotation amplitude, for every noise
function, strength, figure and time. -/
theorem display_offsets_eq_shifted_noiseWiggle (noiseF : ℚ → ℚ → ℚ)
    (noiseStrength : ℚ) (c : CircleArt) (tt : ℚ) :
    (c.displayCalc noiseF noiseStrength tt).dx
        = noiseWiggle noiseF noiseStrength (c.nx + tt) NOISE.wiggle 0 ∧
      (c.displayCalc noiseF noiseStrength tt).dy
        = noiseWiggle noiseF noiseStrength (c.ny + tt) NOISE.wiggle 0 ∧
      (c.displayCalc noiseF noiseStrength tt).ang
        = noiseWiggle noiseF noiseStrength (c.nr + tt) NOISE.rotMax 0 :=
  ⟨rfl, rfl, rfl⟩

/-- Spec-side linear remap of a `[0,1]` sample to `[lo, hi]` (section 4.5's
"breathing scale mapped to `[scaleMin, scaleMax * motionIntensity]`"). -/
def remap01Spec (lo hi sample : ℚ) : ℚ :=
  lo + (hi - lo) * sample

/-- Claim C4: the breathing scale factor is the linear remap of the scale
noise sample from `[0,1]` to `[sMin, sMax * noiseStrength]`: only the
upper bound is scaled by the strength.  With the constant-zero sample the
factor is exactly `sMin` for every strength (lower bound fixed), and with
the constant-one sample it is exactly `sMax * strength`. -/
theorem display_sFactor_remap (noiseF : ℚ → ℚ → ℚ) (noiseStrength : ℚ)
    (c : CircleArt) (tt : ℚ) :
    (c.displayCalc noiseF noiseStrength tt).sFactor
        = remap01Spec NOISE.sMin (NOISE.sMax * noiseStrength) (noiseF (c.ns + tt) 0) ∧
      (c.displayCalc (fun _ _ => 0) noiseStrength tt).sFactor = NOISE.sMin ∧
      (c.displayCalc (fun _ _ => 1) noiseStrength tt).sFactor
        = NOISE.sMax * noiseStrength := by
  refine ⟨?_, ?_, ?_⟩
  · simp only [CircleArt.displayCalc, mapQ, remap01Spec]
    ring
  · simp only [CircleArt.displayCalc, mapQ]
    ring
  · simp only [CircleArt.displayCalc, mapQ]
    ring

/-- One frame adds exactly `NOISE.speed * timeScale` (the shipped
configuration has `animate = true`). -/
theorem drawStep_eq (timeScale t : ℚ) :
    drawStep timeScale t = t + NOISE.speed * timeScale := by
  simp [drawStep, NOISE]

/-- Closed form of the clock after `m` frames. -/
theorem clockAfter_eq (timeScale : ℚ) (m : ℕ) (t0 : ℚ) :
    clockAfter timeScale m t0 = t0 + m * (NOISE.speed * timeScale) := by
  induction m generalizing t0 with
  | zero => simp [clockAfter]
  | succ k ih =>
      rw [clockAfter, ih, drawStep_eq]
      push_cast
      ring

/-- Claim C6: on every rendered frame the clock advances by exactly
`NOISE.speed * timeScale` (the `animate` flag is on in the shipped
configuration); over `n ≥ 1` frames with `timeScale > 0` the clock
strictly increases, with `timeScale = 0` it is unchanged, and with
`timeScale ≥ 0` it never decreases. -/
theorem clock_monotone (timeScale t0 : ℚ) (n : ℕ) :
    drawStep timeScale t0 = t0 + NOISE.speed * timeScale ∧
      (0 < timeScale → 1 ≤ n → t0 < clockAfter timeScale n t0) ∧
      (timeScale = 0 → clockAfter timeScale n t0 = t0) ∧
      (0 ≤ timeScale → t0 ≤ clockAfter timeScale n t0) := by
  refine ⟨drawStep_eq _ _, ?_, ?_, ?_⟩
  · intro hpos hn
    rw [clockAfter_eq]
    have hsp : (0:ℚ) < NOISE.speed * timeScale := by
      have : (0:ℚ) < NOISE.speed := by norm_num [NOISE]
      positivity
    have hcast : (1:ℚ) ≤ (n:ℚ) := by exact_mod_cast hn
    nlinarith
  · intro hz
    rw [clockAfter_eq, hz]
    ring
  · intro hnn
    rw [clockAfter_eq]
    have : (0:ℚ) ≤ (n:ℚ) * (NOISE.speed * timeScale) := by
      have h1 : (0:ℚ) ≤ (n:ℚ) := by positivity
      have h2 : (0:ℚ) ≤ NOISE.speed := by norm_num [NOISE]
      positivity
    linarith

/-- Claim C6, witness at a concrete input. -/
theorem clock_monotone_witness : (0:ℚ) < clockAfter 1 3 0 :=
  (clock_monotone 1 0 3).2.1 (by norm_num) (by norm_num)

/-- Claim C7: starting from clock 0, 100 frames with `timeScale = 1` and
the shipped base step 0.02 leave the clock at exactly 2 (arithmetic
modelled exactly over the rationals). -/
theorem clock_after_100_frames : clockAfter 1 100 0 = 2 := by
  rw [clockAfter_eq]
  norm_num [NOISE]

/-- Immediate-mode transform operations issued inside `display`. -/
inductive GfxOp where
  | translateOp (x y : ℚ)
  | rotateOp (a : ℚ)
  | scaleOp (s : ℚ)
deriving DecidableEq, Repr

/-- p5 transform state: the current transform, recorded as the list of
operations applied since the frame base, and the saved-frame stack
maintained by `push()` / `pop()`. -/
structure GfxState where
  current : List GfxOp
  stack : List (List GfxOp)
deriving DecidableEq, Repr

/-- p5 `push()`: save the current transform on the stack. -/
def gfxPush (g : GfxState) : GfxState :=
  ⟨g.current, g.current :: g.stack⟩

/-- p5 `pop()`: restore the most recently saved transform (no effect on an
empty stack). -/
def gfxPop (g : GfxState) : GfxState :=
  match g.stack with
  | [] => g
  | saved :: rest => ⟨saved, rest⟩

/-- Apply one transform operation to the current transform. -/
def gfxApply (op : GfxOp) (g : GfxState) : GfxState :=
  ⟨g.current ++ [op], g.stack⟩

/-- The transform-stack effect of `CircleArt.display(tt)` (sketch.js lines
147-153): `push(); translate(x+dx, y+dy); rotate(ang); scale(sc);
drawFn(tt); pop()`.  `drawFn` is the injected drawing routine, modelled as
an arbitrary function on the graphics state. -/
def CircleArt.displayGfx (noiseF : ℚ → ℚ → ℚ) (noiseStrength : ℚ) (c : CircleArt)
    (tt : ℚ) (drawFn : ℚ → GfxState → GfxState) (g : GfxState) : GfxState :=
  let d := c.displayCalc noiseF noiseStrength tt
  gfxPop (drawFn tt
    (gfxApply (.scaleOp d.sc)
      (gfxApply (.rotateOp d.ang)
        (gfxApply (.translateOp (c.x + d.dx) (c.y + d.dy)) (gfxPush g)))))

/-- `pop` on any state whose stack is known to be nonempty restores the
saved frame. -/
theorem gfxPop_eq_of_stack (st : GfxState) (saved : List GfxOp)
    (rest : List (List GfxOp)) (h : st.stack = saved :: rest) :
    gfxPop st = ⟨saved, rest⟩ := by
  obtain ⟨c2, s2⟩ := st
  simp only at h
  subst h
  rfl

/-- Claim C8, counterexample: an injected drawing routine that performs an
unmatched `push()` defeats the restoration: starting from the empty
transform state, `display` returns a state different from the one it was
called with, so the transform stack is not restored "regardless of what
the injected drawing routine does internally". -/
theorem display_not_restored_unbalanced :
    figZero.displayGfx clampNoise 1 0 (fun _ g2 => gfxPush g2) ⟨[], []⟩
      ≠ (⟨[], []⟩ : GfxState) := by
  intro h
  have hlen := congrArg (fun g => g.stack.length) h
  simp [CircleArt.displayGfx, gfxPush, gfxApply, gfxPop] at hlen

/-- Claim C8, amended: provided the injected drawing routine leaves the
saved-frame stack unchanged (as balanced `push`/`pop` usage does — and all
twelve routines in the sketch are balanced), `display` restores the exact
prior transform state on exit, no matter how the routine mangles the
current transform; an unbalanced routine can break the restoration. -/
theorem display_restores_transform (noiseF : ℚ → ℚ → ℚ) (noiseStrength : ℚ)
    (c : CircleArt) (tt : ℚ) (drawFn : ℚ → GfxState → GfxState) (g : GfxState)
    (hbal : ∀ u g2, (drawFn u g2).stack = g2.stack) :
    c.displayGfx noiseF noiseStrength tt drawFn g = g := by
  obtain ⟨cur, stk⟩ := g
  simp only [CircleArt.displayGfx]
  exact gfxPop_eq_of_stack _ cur stk (by rw [hbal]; rfl)

/-- Claim C8 (amended), witness: a routine that leaves the graphics state
alone yields exact restoration at a concrete figure and state. -/
theorem display_restores_transform_witness :
    figZero.displayGfx clampNoise 1 0 (fun _ g2 => g2) ⟨[], []⟩
      = (⟨[], []⟩ : GfxState) :=
  display_restores_transform clampNoise 1 figZero 0 (fun _ g2 => g2) ⟨[], []⟩
    (fun _ _ => rfl)

/-- `centerCanvas()` (sketch.js lines 34-40): the canvas position inside
the window, clipped at 0. -/
def centerCanvas (windowWidth windowHeight : ℚ) : ℚ × ℚ :=
  (max 0 ((windowWidth - 800) / 2), max 0 ((windowHeight - 800) / 2))

/-- What `setup()` establishes: the canvas size, its position, and the
angle mode. -/
structure SetupResult where
  canvasWidth : ℚ
  canvasHeight : ℚ
  canvasPos : ℚ × ℚ
  angleDegrees : Bool
deriving DecidableEq, Repr

/-- `setup()` (sketch.js lines 25-29): creates the 800x800 canvas, centers
it, and selects DEGREES angle mode.  The source contains no conditional
and no failure path, and it never inspects the `NOISE` configuration; the
embedding takes the configuration as an argument precisely to express that
startup behavior is independent of it.  `Except` is the error channel a
fail-fast check would use; `setup` always returns `ok`. -/
def setup (cfg : NoiseCfg) (windowWidth windowHeight : ℚ) :
    Except String SetupResult :=
  Except.ok ⟨800, 800, centerCanvas windowWidth windowHeight, true⟩

/-- The configuration-validity predicate named by section 7 of the spec:
`scaleMin ≤ scaleMax` and nonnegative amplitudes and step. -/
def validCfg (cfg : NoiseCfg) : Prop :=
  cfg.sMin ≤ cfg.sMax ∧ 0 ≤ cfg.wiggle ∧ 0 ≤ cfg.rotMax ∧ 0 ≤ cfg.speed

instance (cfg : NoiseCfg) : Decidable (validCfg cfg) := by
  unfold validCfg
  infer_instance

/-- An invalid configuration: `sMin = 2 > 1 = sMax`. -/
def badNoiseCfg : NoiseCfg :=
  { animate := true
    speed := 1/50
    wiggle := 50
    sMin := 2
    sMax := 1
    rotMax := 300 }

/-- Claim C9, counterexample: with the invalid configuration
`badNoiseCfg` (`sMin > sMax`), startup does not fail fast: `setup`
returns `ok` and the program proceeds to render. -/
theorem setup_no_failfast :
    ¬ validCfg badNoiseCfg ∧
      setup badNoiseCfg 1000 1000 = Except.ok ⟨800, 800, (100, 100), true⟩ := by
  constructor
  · intro h
    have := h.1
    norm_num [badNoiseCfg] at this
  · simp only [setup, centerCanvas]
    norm_num

/-- Claim C9, amended: the program performs no startup configuration
validation — `setup` succeeds identically for every configuration, valid
or not — while the shipped `NOISE` configuration happens to satisfy the
validity constraints (`sMin ≤ sMax`, nonnegative amplitudes and step), so
rendering is well-formed in practice. -/
theorem setup_ignores_config (cfg : NoiseCfg) (windowWidth windowHeight : ℚ) :
    setup cfg windowWidth windowHeight
        = Except.ok ⟨800, 800, centerCanvas windowWidth windowHeight, true⟩ ∧
      validCfg NOISE := by
  refine ⟨rfl, ?_, ?_, ?_, ?_⟩ <;> norm_num [NOISE]

/-- An abstract deterministic implementation of p5's seedable random
number generator, over a state type `σ`: `seedFn s` is the state
established by `randomSeed(s)`, and `nextUnit` produces the next value in
`[0, 1)` together with the successor state.  Any concrete deterministic
generator (p5 uses an LCG) is an instance. -/
structure RngImpl (σ : Type) where
  seedFn : ℕ → σ
  nextUnit : σ → ℚ × σ

/-- p5 `random(hi)` = `hi * nextUnit`. -/
def randomUpper {σ : Type} (R : RngImpl σ) (hi : ℚ) (s : σ) : ℚ × σ :=
  let (u, s1) := R.nextUnit s
  (u * hi, s1)

/-- p5 `random(lo, hi)` = `lo + nextUnit * (hi - lo)`. -/
def randomRange {σ : Type} (R : RngImpl σ) (lo hi : ℚ) (s : σ) : ℚ × σ :=
  let (u, s1) := R.nextUnit s
  (lo + u * (hi - lo), s1)

/-- The `CircleArt` constructor (sketch.js lines 97-108): stores the base
transform and the drawing-function tag, then draws the four noise seeds
`nx, ny, ns, nr` with `random(1000)` in that order. -/
def constructCircleArt {σ : Type} (R : RngImpl σ) (x y scale : ℚ)
    (drawFnId : ℕ) (s : σ) : CircleArt × σ :=
  let (nx, s1) := randomUpper R 1000 s
  let (ny, s2) := randomUpper R 1000 s1
  let (nsv, s3) := randomUpper R 1000 s2
  let (nr, s4) := randomUpper R 1000 s3
  (⟨x, y, scale, drawFnId, nx, ny, nsv, nr⟩, s4)

/-- The random draws of one background dot (sketch.js lines 188-199):
`r = random(rMin, rMax)`, then the two scatter coordinates
`random(margin + r, cell - margin - r)` with `margin = 10` and
`cell = 400`. -/
def dotDraw {σ : Type} (R : RngImpl σ) (rMin rMax : ℚ) (s : σ) : σ :=
  let (r, s1) := randomRange R rMin rMax s
  let (_cx, s2) := randomRange R (10 + r) (400 - 10 - r) s1
  let (_cy, s3) := randomRange R (10 + r) (400 - 10 - r) s2
  s3

/-- `count` background dots in one quadrant. -/
def quadrantDraws {σ : Type} (R : RngImpl σ) (rMin rMax : ℚ) :
    ℕ → σ → σ
  | 0, s => s
  | n + 1, s => quadrantDraws R rMin rMax n (dotDraw R rMin rMax s)

/-- The RNG effect of `drawBackgroundGrid()` (sketch.js lines 161-201):
`randomSeed(9103)` — discarding whatever state the generator held — then
25 dots at radii 15-45 in each of the red and blue quadrants and 15 dots
at radii 10-36 in each of the green and orange quadrants, in that order. -/
def drawBackgroundGrid {σ : Type} (R : RngImpl σ) (_s : σ) : σ :=
  let s0 := R.seedFn 9103
  let s1 := quadrantDraws R 15 45 25 s0
  let s2 := quadrantDraws R 15 45 25 s1
  let s3 := quadrantDraws R 10 36 15 s2
  quadrantDraws R 10 36 15 s3

/-- The RNG effect of `drawCircle6(tt)` (sketch.js lines 511-564), the only
drawing routine that touches the random generator: `randomSeed(1234)`,
then per red spark `random(-36, 36)`, `random(-0.05*s, 0.05*s)` and
`random(0.05, 0.1)` for six sparks (`s = 260`), then per dark-red dot
`random(-36, 36)` and `random(0.1, 0.12)` for six dots. -/
def drawCircle6Rng {σ : Type} (R : RngImpl σ) (_s : σ) : σ :=
  let s0 := R.seedFn 1234
  let redSpark : σ → σ := fun u =>
    let (_a, u1) := randomRange R (-36) 36 u
    let (_r, u2) := randomRange R (-13) 13 u1
    let (_d, u3) := randomRange R (1/20) (1/10) u2
    u3
  let darkDot : σ → σ := fun u =>
    let (_a, u1) := randomRange R (-36) 36 u
    let (_d, u2) := randomRange R (1/10) (3/25) u1
    u2
  let s1 := redSpark (redSpark (redSpark (redSpark (redSpark (redSpark s0)))))
  darkDot (darkDot (darkDot (darkDot (darkDot (darkDot s1)))))

/-- The RNG effect of displaying one figure: only the `drawCircle6`
routine (tag 6) uses the random generator. -/
def displayRng {σ : Type} (R : RngImpl σ) (c : CircleArt) (s : σ) : σ :=
  if c.drawFnId = 6 then drawCircle6Rng R s else s

/-- The RNG effect of the display loop over the figure list. -/
def displayAllRng {σ : Type} (R : RngImpl σ) : List CircleArt → σ → σ
  | [], s => s
  | c :: rest, s => displayAllRng R rest (displayRng R c s)

/-- The figure list built on the first frame (sketch.js lines 212-227):
the twelve `new CircleArt(...)` calls in source order, each consuming four
random draws. -/
def buildCircles {σ : Type} (R : RngImpl σ) (s : σ) : List CircleArt × σ :=
  let (c1, s1) := constructCircleArt R 10 10 1 6 s
  let (c2, s2) := constructCircleArt R 220 180 (9/10) 4 s1
  let (c3, s3) := constructCircleArt R 400 (-30) (2/5) 7 s2
  let (c4, s4) := constructCircleArt R 530 180 (3/5) 8 s3
  let (c5, s5) := constructCircleArt R 785 80 (4/5) 4 s4
  let (c6, s6) := constructCircleArt R (-45) 270 (9/10) 3 s5
  let (c7, s7) := constructCircleArt R 154 460 (7/5) 1 s6
  let (c8, s8) := constructCircleArt R 434 460 (7/5) 2 s7
  let (c9, s9) := constructCircleArt R 760 410 (6/5) 3 s8
  let (c10, s10) := constructCircleArt R 20 700 1 5 s9
  let (c11, s11) := constructCircleArt R 295 730 (11/10) 6 s10
  let (c12, s12) := constructCircleArt R 610 730 (7/10) 7 s11
  ([c1, c2, c3, c4, c5, c6, c7, c8, c9, c10, c11, c12], s12)

/-- `drawAllCircles(tt)` (sketch.js lines 210-234): build the figure list
if and only if it is empty, then display every figure (returning the list
and the RNG state after the display loop). -/
def drawAllCircles {σ : Type} (R : RngImpl σ) (circles : List CircleArt)
    (s : σ) : List CircleArt × σ :=
  let built := if circles.length = 0 then buildCircles R s else (circles, s)
  (built.1, displayAllRng R built.1 built.2)

/-- A session state: the cached figure list, the RNG state, and the global
clock `t`. -/
structure Session (σ : Type) where
  circles : List CircleArt
  rng : σ
  t : ℚ

/-- One invocation of `draw()` (sketch.js lines 66-75): redraw the
background (reseeding the generator to 9103 and consuming the grid draws),
advance the clock, then `drawAllCircles`. -/
def drawFrame {σ : Type} (R : RngImpl σ) (timeScale : ℚ) (st : Session σ) :
    Session σ :=
  let s1 := drawBackgroundGrid R st.rng
  let t1 := drawStep timeScale st.t
  let res := drawAllCircles R st.circles s1
  ⟨res.1, res.2, t1⟩

/-- `n` rendered frames, frame `i` using time scale `tsSeq i` (the pointer
may move between frames). -/
def runFrames {σ : Type} (R : RngImpl σ) (tsSeq : ℕ → ℚ) :
    ℕ → Session σ → Session σ
  | 0, st => st
  | n + 1, st => runFrames R (fun i => tsSeq (i + 1)) n (drawFrame R (tsSeq 0) st)

/-- A frame that finds the figure list populated keeps it (the guard
`circles.length === 0` fails), seeds included. -/
theorem drawFrame_preserves_circles {σ : Type} (R : RngImpl σ) (ts : ℚ)
    (st : Session σ) (h : st.circles ≠ []) :
    (drawFrame R ts st).circles = st.circles := by
  simp only [drawFrame, drawAllCircles]
  rw [if_neg (by simpa using h)]

/-- Iterating frames over a populated registry never changes it. -/
theorem runFrames_preserve_circles {σ : Type} (R : RngImpl σ) :
    ∀ (n : ℕ) (tsSeq : ℕ → ℚ) (st : Session σ), st.circles ≠ [] →
      (runFrames R tsSeq n st).circles = st.circles := by
  intro n
  induction n with
  | zero => intro tsSeq st _; rfl
  | succ k ih =>
      intro tsSeq st h
      rw [runFrames]
      rw [ih _ _ (by rw [drawFrame_preserves_circles R _ st h]; exact h)]
      exact drawFrame_preserves_circles R _ st h

/-- Claim C5: starting from an empty registry, the first frame populates
the figure list with exactly twelve figures, and every later frame —
whatever time scales the pointer selects — leaves the list (and therefore
every figure's four stored noise seeds `nx, ny, ns, nr`, drawn once at
construction) unchanged: after `n` further frames the registry is exactly
what the first frame built. -/
theorem registry_instantiated_once {σ : Type} (R : RngImpl σ)
    (tsSeq : ℕ → ℚ) (s0 : σ) (t0 : ℚ) (n : ℕ) :
    (runFrames R tsSeq (n + 1) ⟨[], s0, t0⟩).circles
        = (drawFrame R (tsSeq 0) ⟨[], s0, t0⟩).circles ∧
      (drawFrame R (tsSeq 0) ⟨[], s0, t0⟩).circles.length = 12 := by
  have hbuilt : (drawFrame R (tsSeq 0) ⟨[], s0, t0⟩).circles
      = (buildCircles R (drawBackgroundGrid R s0)).1 := rfl
  have hne : (drawFrame R (tsSeq 0) ⟨[], s0, t0⟩).circles ≠ [] := by
    rw [hbuilt]
    simp [buildCircles]
  constructor
  · rw [runFrames]
    exact runFrames_preserve_circles R n _ _ hne
  · rw [hbuilt]
    simp [buildCircles]

/-- Claim C10: the per-figure noise seeds are identical across any two
runs of the program with the same random-generator implementation:
whatever the generator's initial state, time scale and clock are in each
session, the figure lists built by the first frame coincide, because
`drawBackgroundGrid` reseeds the generator to the constant 9103 before
the lazy construction consumes its `random(1000)` draws. -/
theorem seeds_identical_across_runs {σ : Type} (R : RngImpl σ)
    (ts1 ts2 t1 t2 : ℚ) (s1 s2 : σ) :
    (drawFrame R ts1 ⟨[], s1, t1⟩).circles
      = (drawFrame R ts2 ⟨[], s2, t2⟩).circles := rfl
